import Mathlib

/-!
Shallow embedding of the `extract.py` script written by the notebook
`01-aml-walkthrough/99-archive/feature_engineering_keras.ipynb`
(the `ImageGenerator` class and `create_bottleneck_features`).

Modelling conventions:
* the filesystem is a parameter `listdir : String → List String` giving, for a
  directory path, the names returned by `os.listdir`; `os.path.join` on POSIX
  concatenates with `"/"`;
* `random.shuffle` is a parameter `shuffle : List (String × Nat) → List (String × Nat)`;
  where a claim needs the stdlib guarantee that shuffling permutes the list, it is a
  hypothesis `shuffle l ~ l`;
* image decoding (`image.load_img` + `img_to_array`) is a parameter
  `decode : String → α` into an abstract pixel-array type `α`; a batch (NumPy
  array over the batch axis) is a `List α`;
* `resnet50.preprocess_input` acts elementwise along the batch axis, so it is
  modelled as `List.map preprocess_input` for a per-image `preprocess_input : α → α`;
* the featurizer's `predict_generator` (Keras) requests batches `0 .. len-1`
  from the `Sequence` and concatenates the per-batch predictions row-wise;
* Python exceptions are modelled with `Except String`; in `__init__` the tuple
  unpacking `zip(*labeled_image_list)` raises `ValueError` on an empty list
  before `n_batches` is computed, and `// batch_size` raises
  `ZeroDivisionError` when `batch_size` is `0`.
-/

/-- The dictionary `label_map` of `ImageGenerator.__init__`, in insertion
order (Python 3.6+ dicts preserve it, and `folders = list(label_map.keys())`). -/
def label_map : List (String × Nat) :=
  [("Barren", 0), ("Cultivated", 1), ("Developed", 2),
   ("Forest", 3), ("Herbaceous", 4), ("Shrub", 5)]

/-- POSIX `os.path.join` on two components. -/
def osPathJoin2 (a b : String) : String := a ++ "/" ++ b

/-- POSIX `os.path.join` on three components. -/
def osPathJoin3 (a b c : String) : String := a ++ "/" ++ b ++ "/" ++ c

/-- The list comprehension of `ImageGenerator.__init__`:
`[(os.path.join(img_dir, folder, image), label_map[folder]) for folder in folders
for image in os.listdir(os.path.join(img_dir, folder))]`. -/
def labeledImageList (img_dir : String) (listdir : String → List String) :
    List (String × Nat) :=
  label_map.flatMap fun fl =>
    (listdir (osPathJoin2 img_dir fl.1)).map fun img =>
      (osPathJoin3 img_dir fl.1 img, fl.2)

/-- Python slice `l[a:b]` for `0 ≤ a ≤ b` (out-of-range slices are clamped,
never an error). -/
def pySlice {β : Type} (l : List β) (a b : Nat) : List β :=
  (l.drop a).take (b - a)

/-- The batch-count computation of `ImageGenerator.__init__`:
`n_batches = len // batch_size`, incremented when `len % batch_size > 0`. -/
def nBatches (n b : Nat) : Nat :=
  if n % b > 0 then n / b + 1 else n / b

/-- The state of a constructed `ImageGenerator` (a `tf.keras.utils.Sequence`):
`α` is the abstract type of one decoded image array. -/
structure ImageGenerator (α : Type) where
  image_list : List String
  label_list : List Nat
  batch_size : Nat
  preprocess_fn : Option (List α → List α)
  n_batches : Nat
  num_classes : Nat

/-- The constructor `ImageGenerator.__init__(img_dir, preprocess_fn=None,
batch_size=64)`: list the six class folders, shuffle, unzip into
`image_list`/`label_list` (raising `ValueError` when the list is empty),
store `batch_size` and `preprocess_fn`, compute `n_batches` (raising
`ZeroDivisionError` when `batch_size` is `0`), and set `num_classes`. -/
def mkImageGenerator {α : Type} (img_dir : String) (listdir : String → List String)
    (shuffle : List (String × Nat) → List (String × Nat))
    (preprocess_fn : Option (List α → List α)) (batch_size : Nat) :
    Except String (ImageGenerator α) :=
  let labeled_image_list := shuffle (labeledImageList img_dir listdir)
  if labeled_image_list.isEmpty then
    .error "ValueError: not enough values to unpack (expected 2, got 0)"
  else if batch_size = 0 then
    .error "ZeroDivisionError: integer division or modulo by zero"
  else
    .ok { image_list := labeled_image_list.map Prod.fst
          label_list := labeled_image_list.map Prod.snd
          batch_size := batch_size
          preprocess_fn := preprocess_fn
          n_batches := nBatches labeled_image_list.length batch_size
          num_classes := label_map.length }

/-- Method `ImageGenerator.__load_images`, state-passing form: decode each
pathname in a loop (`images.append(...)`), then apply `preprocess_fn` to the
whole batch when it is not `None`. The returned state is the object after the
call. -/
def ImageGenerator.load_images_st {α : Type} (decode : String → α)
    (g : ImageGenerator α) (pathnames : List String) :
    List α × ImageGenerator α :=
  let images : List α := pathnames.foldl (fun acc p => acc ++ [decode p]) []
  let images : List α :=
    match g.preprocess_fn with
    | none => images
    | some f => f images
  (images, g)

/-- Method `ImageGenerator.__getitem__(index)`, state-passing form:
`pathnames = image_list[index*batch_size:(index+1)*batch_size]`, then
`__load_images(pathnames)`. -/
def ImageGenerator.getitem_st {α : Type} (decode : String → α)
    (g : ImageGenerator α) (index : Nat) : List α × ImageGenerator α :=
  let pathnames := pySlice g.image_list (index * g.batch_size)
    ((index + 1) * g.batch_size)
  g.load_images_st decode pathnames

/-- Method `ImageGenerator.__len__`, state-passing form: `return n_batches`. -/
def ImageGenerator.len_st {α : Type} (g : ImageGenerator α) :
    Nat × ImageGenerator α :=
  (g.n_batches, g)

/-- Method `ImageGenerator.get_labels`, state-passing form:
`return np.asarray(self.label_list)`. -/
def ImageGenerator.get_labels_st {α : Type} (g : ImageGenerator α) :
    List Nat × ImageGenerator α :=
  (g.label_list, g)

/-- The value returned by `__len__`. -/
def ImageGenerator.len {α : Type} (g : ImageGenerator α) : Nat :=
  g.len_st.1

/-- The batch array returned by `__getitem__(index)`. -/
def ImageGenerator.getitem {α : Type} (decode : String → α)
    (g : ImageGenerator α) (index : Nat) : List α :=
  (g.getitem_st decode index).1

/-- The labels array returned by `get_labels`. -/
def ImageGenerator.get_labels {α : Type} (g : ImageGenerator α) : List Nat :=
  g.get_labels_st.1

/-- The pathname slice `image_list[index*batch_size:(index+1)*batch_size]`
computed inside `__getitem__(index)`. -/
def ImageGenerator.batchPaths {α : Type} (g : ImageGenerator α) (index : Nat) :
    List String :=
  pySlice g.image_list (index * g.batch_size) ((index + 1) * g.batch_size)

/-- Keras `Model.predict_generator` applied to a `Sequence`: request batches
`0 .. __len__() - 1` via `__getitem__`, run the model on each decoded batch
row-wise (`featurize : α → β` maps one input row to its prediction row), and
stack the per-batch outputs along the batch axis. -/
def predict_generator {α β : Type} (featurize : α → β) (decode : String → α)
    (g : ImageGenerator α) : List β :=
  ((List.range g.len).map fun i => (g.getitem decode i).map featurize).flatten

/-- The function `create_bottleneck_features()` of `extract.py`: build an
`ImageGenerator` over `FLAGS.input_data_dir` with `resnet50.preprocess_input`
and the default `batch_size=64`, run the featurizer's `predict_generator`,
read `get_labels()`, and return the two arrays that are written to the
`features` and `labels` datasets of the HDF5 output file. -/
def create_bottleneck_features {α β : Type} (decode : String → α)
    (preprocess_input : α → α) (featurize : α → β)
    (input_data_dir : String) (listdir : String → List String)
    (shuffle : List (String × Nat) → List (String × Nat)) :
    Except String (List β × List Nat) :=
  match mkImageGenerator input_data_dir listdir shuffle
      (some (List.map preprocess_input)) 64 with
  | .error e => .error e
  | .ok image_generator =>
      let features := predict_generator featurize decode image_generator
      let labels := image_generator.get_labels
      .ok (features, labels)

/-- Example directory listing: every class folder holds one file `a.png`. -/
def listdirEx : String → List String := fun _ => ["a.png"]

/-- Example labeled sample list over `listdirEx` (six samples, labels 0–5). -/
def lEx : List (String × Nat) := labeledImageList "d" listdirEx

/-- Example generator: `lEx` with identity shuffle, no preprocessing,
batch size 4 (so two batches: one full, one of length 2). -/
def gEx : ImageGenerator Unit :=
  { image_list := lEx.map Prod.fst
    label_list := lEx.map Prod.snd
    batch_size := 4
    preprocess_fn := none
    n_batches := 2
    num_classes := 6 }

/-- Example generator built from `lEx` in reversed order (a second shuffle
outcome over the same directory). -/
def gExRev : ImageGenerator Unit :=
  { image_list := lEx.reverse.map Prod.fst
    label_list := lEx.reverse.map Prod.snd
    batch_size := 4
    preprocess_fn := none
    n_batches := 2
    num_classes := 6 }

/-- The constructor run that produces `gEx`. -/
theorem mkGEx : mkImageGenerator (α := Unit) "d" listdirEx id none 4 = .ok gEx :=
  rfl

/-- The constructor run that produces `gExRev`. -/
theorem mkGExRev :
    mkImageGenerator (α := Unit) "d" listdirEx List.reverse none 4 = .ok gExRev :=
  rfl

/-- Inversion of a successful construction: the shuffled list was nonempty, the
batch size nonzero, and every field of the resulting generator is determined. -/
theorem mkImageGenerator_ok {α : Type} {img_dir : String}
    {listdir : String → List String}
    {shuffle : List (String × Nat) → List (String × Nat)}
    {preprocess_fn : Option (List α → List α)} {batch_size : Nat}
    {g : ImageGenerator α}
    (h : mkImageGenerator img_dir listdir shuffle preprocess_fn batch_size = .ok g) :
    shuffle (labeledImageList img_dir listdir) ≠ [] ∧ 0 < batch_size ∧
    g = { image_list := (shuffle (labeledImageList img_dir listdir)).map Prod.fst
          label_list := (shuffle (labeledImageList img_dir listdir)).map Prod.snd
          batch_size := batch_size
          preprocess_fn := preprocess_fn
          n_batches := nBatches (shuffle (labeledImageList img_dir listdir)).length
            batch_size
          num_classes := 6 } := by
  unfold mkImageGenerator at h
  simp only [List.isEmpty_iff] at h
  split at h
  · exact absurd h (by simp)
  · split at h
    · exact absurd h (by simp)
    · rename_i h1 h2
      refine ⟨h1, Nat.pos_of_ne_zero h2, ?_⟩
      cases h
      rfl

/-- A generator constructed with batch size `b` on a shuffled list `l` has
`n_batches * b ≥ l.length` (the batches cover the whole list). -/
theorem le_nBatches_mul (n b : Nat) (hb : 0 < b) : n ≤ nBatches n b * b := by
  unfold nBatches
  have h1 := Nat.div_add_mod n b
  have h2 := Nat.mod_lt n hb
  have h3 : b * (n / b) = n / b * b := Nat.mul_comm _ _
  split
  · have h4 : (n / b + 1) * b = n / b * b + b := by ring
    omega
  · omega

/-- The `div` + conditional increment of `__init__` is the ceiling division
`(n + b - 1) / b`. -/
theorem nBatches_eq_ceil (n b : Nat) (hb : 0 < b) :
    nBatches n b = (n + b - 1) / b := by
  have h1 := Nat.div_add_mod n b
  have h2 := Nat.mod_lt n hb
  have hsub : n + b - 1 = b * (n / b) + (n % b + b - 1) := by omega
  rw [hsub, Nat.mul_add_div hb]
  unfold nBatches
  split
  · rename_i hr
    have hq : (n % b + b - 1) / b = 1 := by
      have hsub2 : n % b + b - 1 = (n % b - 1) + b := by omega
      rw [hsub2, Nat.add_div_right _ hb,
        Nat.div_eq_of_lt (show n % b - 1 < b by omega)]
    omega
  · rename_i hr
    have hq : (n % b + b - 1) / b = 0 := by
      exact Nat.div_eq_of_lt (by omega)
    omega

/-- A batch index below `n_batches - 1` starts a full slice: `(i+1)*b ≤ n`. -/
theorem succ_mul_le_of_lt_nBatches {i n b : Nat}
    (h : i + 1 < nBatches n b) : (i + 1) * b ≤ n := by
  have hle : i + 1 ≤ n / b := by
    unfold nBatches at h
    split at h <;> omega
  calc (i + 1) * b ≤ n / b * b := Nat.mul_le_mul_right b hle
    _ ≤ n := Nat.div_mul_le_self n b

/-- The slice `l[i*b:(i+1)*b]` is `take b` after `drop (i*b)`. -/
theorem pySlice_mul (l : List String) (i b : Nat) :
    pySlice l (i * b) ((i + 1) * b) = (l.drop (i * b)).take b := by
  unfold pySlice
  congr 1
  rw [Nat.succ_mul]
  omega

/-- Concatenating `k` consecutive `b`-sized slices of a list of length at most
`k * b` reconstructs the list. -/
theorem flatten_slices {β : Type} (b : Nat) :
    ∀ (k : Nat) (l : List β), l.length ≤ k * b →
      ((List.range k).map fun i => (l.drop (i * b)).take b).flatten = l := by
  intro k
  induction k with
  | zero =>
    intro l h
    simp only [Nat.zero_mul, Nat.le_zero] at h
    simp [List.eq_nil_of_length_eq_zero h]
  | succ k ih =>
    intro l h
    rw [List.range_succ_eq_map]
    simp only [List.map_cons, List.map_map, List.flatten_cons, Nat.zero_mul,
      List.drop_zero]
    have hfun : ((fun i => (l.drop (i * b)).take b) ∘ Nat.succ) =
        fun i => ((l.drop b).drop (i * b)).take b := by
      funext i
      simp only [Function.comp_apply, List.drop_drop]
      congr 2
      rw [Nat.succ_mul]
      omega
    rw [hfun, ih (l.drop b) (by
      rw [Nat.succ_mul] at h
      simp only [List.length_drop]
      omega)]
    exact List.take_append_drop b l

/-- The loop of `__load_images` (`images = []; for p: images.append(decode p)`)
builds `pathnames.map decode`. -/
theorem foldl_append_singleton {σ α : Type} (f : σ → α) :
    ∀ (l : List σ) (acc : List α),
      l.foldl (fun a p => a ++ [f p]) acc = acc ++ l.map f := by
  intro l
  induction l with
  | nil => intro acc; simp
  | cons x xs ih => intro acc; simp [ih]

/-- Unfolding `__getitem__`: the returned batch is the decoded pathname slice,
with `preprocess_fn` applied when present. -/
theorem getitem_eq {α : Type} (decode : String → α) (g : ImageGenerator α)
    (index : Nat) :
    g.getitem decode index =
      match g.preprocess_fn with
      | none => (g.batchPaths index).map decode
      | some f => f ((g.batchPaths index).map decode) := by
  unfold ImageGenerator.getitem ImageGenerator.getitem_st
    ImageGenerator.load_images_st ImageGenerator.batchPaths
  simp only [foldl_append_singleton, List.nil_append]

/-- The value of `__len__` is the stored `n_batches`. -/
theorem len_eq {α : Type} (g : ImageGenerator α) : g.len = g.n_batches := rfl

/-- On any generator whose batches cover its list, concatenating the pathname
slices of batches `0 .. n_batches - 1` rebuilds `image_list`. -/
theorem batchPaths_flatten_of {α : Type} (g : ImageGenerator α)
    (hnb : g.image_list.length ≤ g.n_batches * g.batch_size) :
    ((List.range g.n_batches).map fun i => g.batchPaths i).flatten =
      g.image_list := by
  have hp : ∀ i, g.batchPaths i =
      (g.image_list.drop (i * g.batch_size)).take g.batch_size := fun i =>
    pySlice_mul _ i _
  simp only [hp]
  exact flatten_slices g.batch_size g.n_batches g.image_list hnb

/-- Every successfully constructed generator satisfies the cover inequality
`image_list.length ≤ n_batches * batch_size`. -/
theorem length_le_of_ok {α : Type} {img_dir : String}
    {listdir : String → List String}
    {shuffle : List (String × Nat) → List (String × Nat)}
    {preprocess_fn : Option (List α → List α)} {batch_size : Nat}
    {g : ImageGenerator α}
    (h : mkImageGenerator img_dir listdir shuffle preprocess_fn batch_size = .ok g) :
    g.image_list.length ≤ g.n_batches * g.batch_size := by
  obtain ⟨-, hb, rfl⟩ := mkImageGenerator_ok h
  simp only [List.length_map]
  exact le_nBatches_mul _ _ hb

/-- Concatenating the pathname slices of a constructed generator rebuilds its
(shuffled) `image_list`. -/
theorem generator_batches_flatten {α : Type} {img_dir : String}
    {listdir : String → List String}
    {shuffle : List (String × Nat) → List (String × Nat)}
    {preprocess_fn : Option (List α → List α)} {batch_size : Nat}
    {g : ImageGenerator α}
    (h : mkImageGenerator img_dir listdir shuffle preprocess_fn batch_size = .ok g) :
    ((List.range g.len).map fun i => g.batchPaths i).flatten = g.image_list := by
  rw [len_eq]
  exact batchPaths_flatten_of g (length_le_of_ok h)

/-- C1: for every sample list of count `n` and every batch size `b > 0`
accepted by the constructor, the stored `n_batches` returned by `__len__`
equals `ceil(n / b)`, computed as `n / b` plus one when `n % b` is nonzero. -/
theorem claim_C1_batch_count {α : Type} {img_dir : String}
    {listdir : String → List String}
    {shuffle : List (String × Nat) → List (String × Nat)}
    {preprocess_fn : Option (List α → List α)} {b : Nat} {g : ImageGenerator α}
    (h : mkImageGenerator img_dir listdir shuffle preprocess_fn b = .ok g) :
    g.len = g.image_list.length / b +
      (if g.image_list.length % b > 0 then 1 else 0) ∧
    g.len = (g.image_list.length + b - 1) / b := by
  obtain ⟨-, hb, rfl⟩ := mkImageGenerator_ok h
  rw [len_eq]
  simp only [List.length_map]
  constructor
  · unfold nBatches
    split <;> simp
  · exact nBatches_eq_ceil _ b hb

/-- Witness for C1 at a concrete generator: six samples, batch size 4. -/
theorem claim_C1_witness :
    gEx.len = gEx.image_list.length / 4 +
      (if gEx.image_list.length % 4 > 0 then 1 else 0) ∧
    gEx.len = (gEx.image_list.length + 4 - 1) / 4 :=
  claim_C1_batch_count
    (show mkImageGenerator (α := Unit) "d" listdirEx id none 4 = .ok gEx from rfl)

/-- C4, counterexample: constructing over a directory with no image files does
not succeed — `zip(*labeled_image_list)` raises `ValueError` on the empty
list, so `__init__` never reaches the batch-count computation. -/
theorem claim_C4_counterexample :
    mkImageGenerator (α := Unit) "d" (fun _ => []) id none 64 =
      .error "ValueError: not enough values to unpack (expected 2, got 0)" :=
  rfl

/-- C4 (amended): constructing an `ImageGenerator` over an input directory
containing no image files raises `ValueError` (the tuple unpacking of the
empty zip fails), rather than succeeding; the batch-count formula itself,
applied to a sample count of 0 and batch size `b > 0`, does yield 0 batches. -/
theorem claim_C4_empty_raises {α : Type} (img_dir : String)
    (listdir : String → List String)
    (shuffle : List (String × Nat) → List (String × Nat))
    (preprocess_fn : Option (List α → List α)) (b : Nat)
    (hempty : shuffle (labeledImageList img_dir listdir) = []) :
    mkImageGenerator img_dir listdir shuffle preprocess_fn b =
      .error "ValueError: not enough values to unpack (expected 2, got 0)" ∧
    (0 < b → nBatches 0 b = 0) := by
  constructor
  · unfold mkImageGenerator
    simp [hempty]
  · intro _
    unfold nBatches
    simp

/-- Witness for the amended C4 at a concrete empty directory. -/
theorem claim_C4_witness :
    (mkImageGenerator (α := Unit) "e" (fun _ => []) id none 3 =
      .error "ValueError: not enough values to unpack (expected 2, got 0)") ∧
    (0 < 3 → nBatches 0 3 = 0) :=
  claim_C4_empty_raises "e" (fun _ => []) id none 3 rfl

/-- C5: `__getitem__` returns the decoded batch unprocessed when
`preprocess_fn` is `None`, and the result of applying `preprocess_fn` to the
whole decoded batch when it was supplied. -/
theorem claim_C5_preprocess {α : Type} (decode : String → α)
    (g : ImageGenerator α) (i : Nat) :
    (g.preprocess_fn = none →
      g.getitem decode i = (g.batchPaths i).map decode) ∧
    (∀ f, g.preprocess_fn = some f →
      g.getitem decode i = f ((g.batchPaths i).map decode)) := by
  constructor
  · intro hpre
    rw [getitem_eq, hpre]
  · intro f hpre
    rw [getitem_eq, hpre]

/-- Example generator with a supplied preprocessing function (adds 1 to every
decoded value). -/
def gExP : ImageGenerator Nat :=
  { image_list := lEx.map Prod.fst
    label_list := lEx.map Prod.snd
    batch_size := 4
    preprocess_fn := some (List.map (· + 1))
    n_batches := 2
    num_classes := 6 }

/-- Witness for C5: the `None` case on `gEx` and the supplied case on `gExP`. -/
theorem claim_C5_witness :
    gEx.getitem (fun _ => ()) 0 = (gEx.batchPaths 0).map (fun _ => ()) ∧
    gExP.getitem String.length 0 =
      List.map (· + 1) ((gExP.batchPaths 0).map String.length) :=
  ⟨(claim_C5_preprocess (fun _ => ()) gEx 0).1 rfl,
   (claim_C5_preprocess String.length gExP 0).2 (List.map (· + 1)) rfl⟩

/-- C9: no method mutates the generator — `__len__`, `__getitem__` and
`get_labels` all return the object state they were given, so every field
(`image_list`, `label_list`, `batch_size`, `preprocess_fn`, `n_batches`,
`num_classes`) and in particular the shuffled order fixed at construction
stay unchanged for the lifetime of the object. -/
theorem claim_C9_no_mutation {α : Type} (decode : String → α)
    (g : ImageGenerator α) (i : Nat) :
    g.len_st.2 = g ∧ (g.getitem_st decode i).2 = g ∧ g.get_labels_st.2 = g :=
  ⟨rfl, rfl, rfl⟩

/-- Mapping a function over every batch slice and concatenating equals mapping
it over the whole (shuffled) `image_list`. -/
theorem batches_map_flatten {α γ : Type} {img_dir : String}
    {listdir : String → List String}
    {shuffle : List (String × Nat) → List (String × Nat)}
    {preprocess_fn : Option (List α → List α)} {batch_size : Nat}
    {g : ImageGenerator α}
    (h : mkImageGenerator img_dir listdir shuffle preprocess_fn batch_size = .ok g)
    (F : String → γ) :
    ((List.range g.len).map fun i => (g.batchPaths i).map F).flatten =
      g.image_list.map F := by
  have h1 : ((List.range g.len).map fun i => (g.batchPaths i).map F) =
      ((List.range g.len).map fun i => g.batchPaths i).map (List.map F) := by
    rw [List.map_map]
    rfl
  rw [h1, ← List.map_flatten, generator_batches_flatten h]

/-- C2: for every constructed generator, concatenating the batches
`__getitem__(0), …, __getitem__(n_batches - 1)` yields exactly the full
shuffled sample list in order — as pathname slices, and as decoded images
when no preprocessing function was supplied. -/
theorem claim_C2_batches_cover {α : Type} (decode : String → α)
    {img_dir : String} {listdir : String → List String}
    {shuffle : List (String × Nat) → List (String × Nat)}
    {preprocess_fn : Option (List α → List α)} {batch_size : Nat}
    {g : ImageGenerator α}
    (h : mkImageGenerator img_dir listdir shuffle preprocess_fn batch_size = .ok g) :
    ((List.range g.len).map fun i => g.batchPaths i).flatten = g.image_list ∧
    (g.preprocess_fn = none →
      ((List.range g.len).map fun i => g.getitem decode i).flatten =
        g.image_list.map decode) := by
  refine ⟨generator_batches_flatten h, fun hpre => ?_⟩
  have hgi : (fun i => g.getitem decode i) =
      fun i => (g.batchPaths i).map decode := by
    funext i
    rw [getitem_eq, hpre]
  rw [hgi, batches_map_flatten h decode]

/-- Witness for C2 at the concrete generator `gEx`. -/
theorem claim_C2_witness :
    ((List.range gEx.len).map fun i => gEx.batchPaths i).flatten =
      gEx.image_list ∧
    (gEx.preprocess_fn = none →
      ((List.range gEx.len).map fun i => gEx.getitem (fun _ => ()) i).flatten =
        gEx.image_list.map fun _ => ()) :=
  claim_C2_batches_cover (fun _ => ()) mkGEx

/-- C6: every batch `i < n_batches` is the contiguous sub-sequence of the
sample list starting at `i * batch_size`; its length is `batch_size` for every
batch before the last, and the last batch has length `n % batch_size` when
that remainder is nonzero. -/
theorem claim_C6_batch_slices {α : Type} {img_dir : String}
    {listdir : String → List String}
    {shuffle : List (String × Nat) → List (String × Nat)}
    {preprocess_fn : Option (List α → List α)} {b : Nat} {g : ImageGenerator α}
    (h : mkImageGenerator img_dir listdir shuffle preprocess_fn b = .ok g)
    (i : Nat) (_hi : i < g.len) :
    (∀ j, j < g.batch_size →
      (g.batchPaths i)[j]? = g.image_list[i * g.batch_size + j]?) ∧
    (g.batchPaths i).length =
      min g.batch_size (g.image_list.length - i * g.batch_size) ∧
    (i + 1 < g.len → (g.batchPaths i).length = g.batch_size) ∧
    (i + 1 = g.len → 0 < g.image_list.length % g.batch_size →
      (g.batchPaths i).length = g.image_list.length % g.batch_size) := by
  obtain ⟨hne, hb, hgeq⟩ := mkImageGenerator_ok h
  have hbs : g.batch_size = b := by rw [hgeq]
  have hnb : g.n_batches =
      nBatches (shuffle (labeledImageList img_dir listdir)).length b := by
    rw [hgeq]
  have hn : g.image_list.length =
      (shuffle (labeledImageList img_dir listdir)).length := by
    rw [hgeq]
    exact List.length_map _ _
  have hpaths : g.batchPaths i =
      (g.image_list.drop (i * g.batch_size)).take g.batch_size :=
    pySlice_mul _ i _
  have hlen : g.len = nBatches g.image_list.length g.batch_size := by
    rw [len_eq, hnb, ← hn, ← hbs]
  refine ⟨?_, ?_, ?_, ?_⟩
  · intro j hj
    rw [hpaths, List.getElem?_take, if_pos hj, List.getElem?_drop]
  · rw [hpaths, List.length_take, List.length_drop]
  · intro h3
    rw [hlen] at h3
    have hmul := succ_mul_le_of_lt_nBatches h3
    rw [hpaths, List.length_take, List.length_drop]
    rw [Nat.succ_mul] at hmul
    omega
  · intro h4 hmod
    rw [hlen] at h4
    rw [hpaths, List.length_take, List.length_drop]
    have hdm := Nat.div_add_mod g.image_list.length g.batch_size
    have hlt : g.image_list.length % g.batch_size < g.batch_size :=
      Nat.mod_lt _ (by omega)
    have hlen4 := h4
    unfold nBatches at hlen4
    rw [if_pos hmod] at hlen4
    have hieq : i = g.image_list.length / g.batch_size := by omega
    have hib : i * g.batch_size =
        g.batch_size * (g.image_list.length / g.batch_size) := by
      rw [hieq, Nat.mul_comm]
    rw [hib]
    omega

/-- Witness for C6 at the final (short) batch of `gEx`. -/
theorem claim_C6_witness :
    (∀ j, j < gEx.batch_size →
      (gEx.batchPaths 1)[j]? = gEx.image_list[1 * gEx.batch_size + j]?) ∧
    (gEx.batchPaths 1).length =
      min gEx.batch_size (gEx.image_list.length - 1 * gEx.batch_size) ∧
    (1 + 1 < gEx.len → (gEx.batchPaths 1).length = gEx.batch_size) ∧
    (1 + 1 = gEx.len → 0 < gEx.image_list.length % gEx.batch_size →
      (gEx.batchPaths 1).length = gEx.image_list.length % gEx.batch_size) :=
  claim_C6_batch_slices mkGEx 1 (by decide)

/-- C10: requesting a batch index at or past `n_batches` does not fail — the
slice `image_list[index*batch_size:(index+1)*batch_size]` is empty, so
`__getitem__` returns an empty batch (the preprocessing function applied to an
empty batch when one was supplied). -/
theorem claim_C10_past_end {α : Type} (decode : String → α) {img_dir : String}
    {listdir : String → List String}
    {shuffle : List (String × Nat) → List (String × Nat)}
    {preprocess_fn : Option (List α → List α)} {batch_size : Nat}
    {g : ImageGenerator α}
    (h : mkImageGenerator img_dir listdir shuffle preprocess_fn batch_size = .ok g)
    (i : Nat) (hi : g.len ≤ i) :
    g.batchPaths i = [] ∧
    (g.preprocess_fn = none → g.getitem decode i = []) ∧
    (∀ f, g.preprocess_fn = some f → g.getitem decode i = f []) := by
  have hcov := length_le_of_ok h
  have h1 : g.image_list.length ≤ i * g.batch_size := by
    calc g.image_list.length ≤ g.n_batches * g.batch_size := hcov
      _ ≤ i * g.batch_size :=
        Nat.mul_le_mul_right _ (by rw [← len_eq]; exact hi)
  have hempty : g.batchPaths i = [] := by
    unfold ImageGenerator.batchPaths
    rw [pySlice_mul, List.drop_eq_nil_of_le h1, List.take_nil]
  refine ⟨hempty, fun hpre => ?_, fun f hpre => ?_⟩
  · rw [getitem_eq, hpre, hempty]
    rfl
  · rw [getitem_eq, hpre, hempty]
    rfl

/-- Witness for C10 at `gEx` with the out-of-range index 5. -/
theorem claim_C10_witness :
    gEx.batchPaths 5 = [] ∧
    (gEx.preprocess_fn = none → gEx.getitem (fun _ => ()) 5 = []) ∧
    (∀ f, gEx.preprocess_fn = some f → gEx.getitem (fun _ => ()) 5 = f []) :=
  claim_C10_past_end (fun _ => ()) mkGEx 5 (by decide)

/-- The value of `get_labels` is the stored `label_list`. -/
theorem get_labels_eq {α : Type} (g : ImageGenerator α) :
    g.get_labels = g.label_list := rfl

/-- C3: in every successful run of `create_bottleneck_features`, the written
`features` and `labels` arrays have the same row count, equal to the sample
count, and row `i` of each corresponds to the `i`-th entry of the already
shuffled sample list (`features[i]` is the featurized, preprocessed decoding
of its path, `labels[i]` is its label). -/
theorem claim_C3_output_alignment {α β : Type} (decode : String → α)
    (preprocess_input : α → α) (featurize : α → β)
    {input_data_dir : String} {listdir : String → List String}
    {shuffle : List (String × Nat) → List (String × Nat)}
    {features : List β} {labels : List Nat}
    (h : create_bottleneck_features decode preprocess_input featurize
      input_data_dir listdir shuffle = .ok (features, labels)) :
    features.length = labels.length ∧
    labels.length = (shuffle (labeledImageList input_data_dir listdir)).length ∧
    features = (shuffle (labeledImageList input_data_dir listdir)).map
      (fun s => featurize (preprocess_input (decode s.1))) ∧
    labels = (shuffle (labeledImageList input_data_dir listdir)).map Prod.snd := by
  unfold create_bottleneck_features at h
  split at h
  · exact absurd h (by simp)
  · rename_i g hg
    simp only [Except.ok.injEq, Prod.mk.injEq] at h
    obtain ⟨hfeat, hlab⟩ := h
    obtain ⟨hne, hb, hgeq⟩ := mkImageGenerator_ok hg
    have hpre : g.preprocess_fn = some (List.map preprocess_input) := by
      rw [hgeq]
    have himg : g.image_list =
        (shuffle (labeledImageList input_data_dir listdir)).map Prod.fst := by
      rw [hgeq]
    have hlabels : g.label_list =
        (shuffle (labeledImageList input_data_dir listdir)).map Prod.snd := by
      rw [hgeq]
    have hfe : predict_generator featurize decode g =
        g.image_list.map fun p => featurize (preprocess_input (decode p)) := by
      unfold predict_generator
      have hgi : (fun i => (g.getitem decode i).map featurize) =
          fun i => (g.batchPaths i).map
            fun p => featurize (preprocess_input (decode p)) := by
        funext i
        rw [getitem_eq, hpre]
        simp [List.map_map, Function.comp]
      rw [hgi, batches_map_flatten hg]
    have hfeatures : features =
        (shuffle (labeledImageList input_data_dir listdir)).map
          fun s => featurize (preprocess_input (decode s.1)) := by
      rw [← hfeat, hfe, himg, List.map_map]
      rfl
    have hlabels2 : labels =
        (shuffle (labeledImageList input_data_dir listdir)).map Prod.snd := by
      rw [← hlab, get_labels_eq, hlabels]
    refine ⟨?_, ?_, hfeatures, hlabels2⟩
    · rw [hfeatures, hlabels2, List.length_map, List.length_map]
    · rw [hlabels2, List.length_map]

/-- The features array computed by the concrete C3 run (decode = string
length, preprocess adds 1, featurizer doubles). -/
def cbfFeaturesEx : List Nat := lEx.map fun s => (s.1.length + 1) * 2

/-- The labels array computed by the concrete C3 run. -/
def cbfLabelsEx : List Nat := lEx.map Prod.snd

/-- Witness for C3 at a concrete run over `listdirEx`. -/
theorem claim_C3_witness :
    cbfFeaturesEx.length = cbfLabelsEx.length ∧
    cbfLabelsEx.length = (id (labeledImageList "d" listdirEx)).length ∧
    cbfFeaturesEx = (id (labeledImageList "d" listdirEx)).map
      (fun s => (s.1.length + 1) * 2) ∧
    cbfLabelsEx = (id (labeledImageList "d" listdirEx)).map Prod.snd :=
  claim_C3_output_alignment String.length (· + 1) (· * 2) rfl

/-- C7: two constructions over the same input directory whose shuffles differ
still produce sample lists that are permutations of each other — the same
multiset of (file path, label) pairs and the same count. -/
theorem claim_C7_shuffle_invariance {α : Type} {img_dir : String}
    {listdir : String → List String}
    {shuffle1 shuffle2 : List (String × Nat) → List (String × Nat)}
    {pre1 pre2 : Option (List α → List α)} {b1 b2 : Nat}
    {g1 g2 : ImageGenerator α}
    (hs1 : (shuffle1 (labeledImageList img_dir listdir)).Perm
      (labeledImageList img_dir listdir))
    (hs2 : (shuffle2 (labeledImageList img_dir listdir)).Perm
      (labeledImageList img_dir listdir))
    (h1 : mkImageGenerator img_dir listdir shuffle1 pre1 b1 = .ok g1)
    (h2 : mkImageGenerator img_dir listdir shuffle2 pre2 b2 = .ok g2) :
    (g1.image_list.zip g1.label_list).Perm
      (g2.image_list.zip g2.label_list) ∧
    g1.image_list.length = g2.image_list.length := by
  obtain ⟨-, -, hg1⟩ := mkImageGenerator_ok h1
  obtain ⟨-, -, hg2⟩ := mkImageGenerator_ok h2
  have hzip1 : g1.image_list.zip g1.label_list =
      shuffle1 (labeledImageList img_dir listdir) := by
    rw [hg1]
    exact (List.zip_of_prod rfl rfl).symm
  have hzip2 : g2.image_list.zip g2.label_list =
      shuffle2 (labeledImageList img_dir listdir) := by
    rw [hg2]
    exact (List.zip_of_prod rfl rfl).symm
  constructor
  · rw [hzip1, hzip2]
    exact hs1.trans hs2.symm
  · have hl1 : g1.image_list =
        (shuffle1 (labeledImageList img_dir listdir)).map Prod.fst := by
      rw [hg1]
    have hl2 : g2.image_list =
        (shuffle2 (labeledImageList img_dir listdir)).map Prod.fst := by
      rw [hg2]
    rw [hl1, hl2, List.length_map, List.length_map,
      hs1.length_eq, hs2.length_eq]

/-- Witness for C7: identity shuffle versus reversal over the same listing. -/
theorem claim_C7_witness :
    (gEx.image_list.zip gEx.label_list).Perm
      (gExRev.image_list.zip gExRev.label_list) ∧
    gEx.image_list.length = gExRev.image_list.length :=
  claim_C7_shuffle_invariance (List.Perm.refl _) (List.reverse_perm _)
    mkGEx mkGExRev

/-- C8: the sample list is built from the six fixed class names mapped to
indices 0–5; every (path, label) pair's label is the index of the class-named
subdirectory the file was listed from, so every label is below 6, and
`num_classes` is 6. -/
theorem claim_C8_label_mapping {α : Type} {img_dir : String}
    {listdir : String → List String}
    {shuffle : List (String × Nat) → List (String × Nat)}
    {preprocess_fn : Option (List α → List α)} {b : Nat} {g : ImageGenerator α}
    (hs : (shuffle (labeledImageList img_dir listdir)).Perm
      (labeledImageList img_dir listdir))
    (h : mkImageGenerator img_dir listdir shuffle preprocess_fn b = .ok g) :
    g.num_classes = 6 ∧
    label_map.map Prod.snd = [0, 1, 2, 3, 4, 5] ∧
    (∀ lab ∈ g.label_list, lab < 6) ∧
    (∀ s ∈ g.image_list.zip g.label_list, ∃ folder file,
      (folder, s.2) ∈ label_map ∧ file ∈ listdir (osPathJoin2 img_dir folder) ∧
      s.1 = osPathJoin3 img_dir folder file) := by
  obtain ⟨hne, hb, hgeq⟩ := mkImageGenerator_ok h
  have hnum : g.num_classes = 6 := by rw [hgeq]
  have hzip : g.image_list.zip g.label_list =
      shuffle (labeledImageList img_dir listdir) := by
    rw [hgeq]
    exact (List.zip_of_prod rfl rfl).symm
  have hlabels : g.label_list =
      (shuffle (labeledImageList img_dir listdir)).map Prod.snd := by
    rw [hgeq]
  have hlt : ∀ p ∈ label_map, p.2 < 6 := by decide
  have hmem_src : ∀ s ∈ shuffle (labeledImageList img_dir listdir),
      ∃ folder file, (folder, s.2) ∈ label_map ∧
        file ∈ listdir (osPathJoin2 img_dir folder) ∧
        s.1 = osPathJoin3 img_dir folder file := by
    intro s hmem
    have hmem2 : s ∈ labeledImageList img_dir listdir := hs.mem_iff.mp hmem
    unfold labeledImageList at hmem2
    rw [List.mem_flatMap] at hmem2
    obtain ⟨fl, hfl, hmem3⟩ := hmem2
    rw [List.mem_map] at hmem3
    obtain ⟨file, hfile, heq⟩ := hmem3
    subst heq
    exact ⟨fl.1, file, by simpa using hfl, hfile, rfl⟩
  refine ⟨hnum, rfl, ?_, ?_⟩
  · intro lab hmem
    rw [hlabels, List.mem_map] at hmem
    obtain ⟨s, hmem, rfl⟩ := hmem
    obtain ⟨folder, file, hfolder, -, -⟩ := hmem_src s hmem
    exact hlt (folder, s.2) hfolder
  · intro s hmem
    rw [hzip] at hmem
    exact hmem_src s hmem

/-- Witness for C8 at the concrete generator `gEx`. -/
theorem claim_C8_witness :
    gEx.num_classes = 6 ∧
    label_map.map Prod.snd = [0, 1, 2, 3, 4, 5] ∧
    (∀ lab ∈ gEx.label_list, lab < 6) ∧
    (∀ s ∈ gEx.image_list.zip gEx.label_list, ∃ folder file,
      (folder, s.2) ∈ label_map ∧
      file ∈ listdirEx (osPathJoin2 "d" folder) ∧
      s.1 = osPathJoin3 "d" folder file) :=
  claim_C8_label_mapping (List.Perm.refl _) mkGEx
